import Mathlib

/-!
Verification of the NetworkStatusDashboard metric-collection and alerting
engine (src/monitoring.py, src/models.py) against its specification.

The embedding models Python values flowing through the collector as a JSON-like
inductive type, upstream HTTP traffic as an oracle from URL to outcome, and the
dict-mutating, exception-raising Python code as a state-preserving result monad
(an exception carries the dict state at the raise point, as CPython does).
-/

namespace NetDash

/-- JSON-like Python values (the payloads decoded from upstream responses and
the values stored in the `metrics` dict). Numbers are modelled as rationals. -/
inductive JVal where
  | null
  | bool (b : Bool)
  | num (q : ℚ)
  | str (s : String)
  | arr (xs : List JVal)
  | obj (kvs : List (String × JVal))

/-- Exception classes that the monitoring code can raise or catch. -/
inductive PyErr where
  | typeError
  | valueError
  | keyError
  | attrError
  | indexError
  | reqError
  | otherError
deriving DecidableEq

/-- Python truthiness of a value (`if v:`). -/
def truthy : JVal → Bool
  | .null => false
  | .bool b => b
  | .num q => decide (q ≠ 0)
  | .str s => !(s == "")
  | .arr xs => !xs.isEmpty
  | .obj kvs => !kvs.isEmpty

/-- Python `v == "k"` for a string literal on the right: true only when `v` is
an equal string. -/
def jEqStr : JVal → String → Bool
  | .str t, s => t == s
  | _, _ => false

/-- Association-list lookup used for JSON objects / Python dicts. -/
def jLookup (kvs : List (String × JVal)) (k : String) : Option JVal :=
  (kvs.find? (fun p => p.1 == k)).map (fun p => p.2)

/-- Python whitespace characters recognised by `str.split()` / `str.strip()`. -/
def pyIsSpace (c : Char) : Bool :=
  c = ' ' || c = '\t' || c = '\n' || c = '\r' || c = '\u000B' || c = '\u000C'

/-- `str.strip()` on the character list. -/
def stripChars (cs : List Char) : List Char :=
  ((cs.dropWhile pyIsSpace).reverse.dropWhile pyIsSpace).reverse

/-- `str.strip()`. -/
def pyStrip (s : String) : String := String.mk (stripChars s.data)

/-- Split a character list at a separator character; mirrors Python
`str.split(sep)` for a one-character separator (keeps empty fields). -/
def splitCharAux (sep : Char) : List Char → List Char → List (List Char)
  | [], acc => [acc.reverse]
  | c :: rest, acc =>
    if c = sep then acc.reverse :: splitCharAux sep rest []
    else splitCharAux sep rest (c :: acc)

/-- Python `s.split(sep)` for a one-character separator. -/
def pySplitChar (s : String) (sep : Char) : List String :=
  (splitCharAux sep s.data []).map String.mk

/-- Does `cs` start with `pat`? -/
def startsWithList : List Char → List Char → Bool
  | _, [] => true
  | [], _ :: _ => false
  | c :: cs, p :: ps => c = p && startsWithList cs ps

/-- Does `cs` contain `pat` as a contiguous sublist? -/
def containsList : List Char → List Char → Bool
  | [], pat => pat.isEmpty
  | c :: cs, pat => startsWithList (c :: cs) pat || containsList cs pat

/-- Python `pat in s` on strings (substring test). -/
def pyStrContains (s pat : String) : Bool := containsList s.data pat.data

/-- Whitespace split (Python `str.split()` with no argument: drops empty
fields). -/
def splitWsAux : List Char → List Char → List (List Char)
  | [], acc => if acc.isEmpty then [] else [acc.reverse]
  | c :: rest, acc =>
    if pyIsSpace c then
      if acc.isEmpty then splitWsAux rest []
      else acc.reverse :: splitWsAux rest []
    else splitWsAux rest (c :: acc)

/-- Python `s.split()` (whitespace split). -/
def pySplitWs (s : String) : List String :=
  (splitWsAux s.data []).map String.mk

/-- Python `s.isdigit()` (restricted to ASCII digits). -/
def pyIsdigitStr (s : String) : Bool :=
  !s.data.isEmpty && s.data.all Char.isDigit

/-- Value of a digit string (0 for the empty list); no validity check. -/
def valDigits : List Char → Nat → Nat
  | [], acc => acc
  | c :: rest, acc => valDigits rest (acc * 10 + (c.toNat - 48))

/-- Parse a nonempty all-digit character list as a natural number. -/
def digitsToNat (cs : List Char) : Option Nat :=
  if cs.isEmpty then none
  else if cs.all Char.isDigit then some (valDigits cs 0)
  else none

/-- Python `int(s)` on a string: strip, optional sign, digits. -/
def pyIntOfString (s : String) : Except PyErr Int :=
  let cs := stripChars s.data
  match cs with
  | '-' :: rest =>
    match digitsToNat rest with
    | some n => .ok (-(n : Int))
    | none => .error .valueError
  | '+' :: rest =>
    match digitsToNat rest with
    | some n => .ok (n : Int)
    | none => .error .valueError
  | _ =>
    match digitsToNat cs with
    | some n => .ok (n : Int)
    | none => .error .valueError

/-- Parse an unsigned decimal literal (`digits`, `digits.digits`, `.digits`,
`digits.`) as a rational. -/
def parseUnsignedFloat (cs : List Char) : Option ℚ :=
  match splitCharAux '.' cs [] with
  | [ip] => (digitsToNat ip).map (fun n => (n : ℚ))
  | [ip, fp] =>
    if ip.isEmpty && fp.isEmpty then none
    else if ip.all Char.isDigit && fp.all Char.isDigit then
      some ((valDigits ip 0 : ℚ) + (valDigits fp 0 : ℚ) / ((10 : ℚ) ^ fp.length))
    else none
  | _ => none

/-- Python `float(s)` on a string (decimal literals; exponents unused by the
monitored endpoints are out of scope). -/
def pyFloatOfString (s : String) : Option ℚ :=
  match stripChars s.data with
  | '-' :: rest => (parseUnsignedFloat rest).map (fun q => -q)
  | '+' :: rest => parseUnsignedFloat rest
  | cs => parseUnsignedFloat cs

/-- Python `float(v)`. -/
def pyFloat : JVal → Except PyErr ℚ
  | .num q => .ok q
  | .bool b => .ok (if b then 1 else 0)
  | .str s =>
    match pyFloatOfString s with
    | some q => .ok q
    | none => .error .valueError
  | _ => .error .typeError

/-- Truncation toward zero, as Python `int()` applied to a float. -/
def ratTrunc (q : ℚ) : Int :=
  if 0 ≤ q then q.floor else -((-q).floor)

/-- Python `int(v)`. -/
def pyInt : JVal → Except PyErr Int
  | .num q => .ok (ratTrunc q)
  | .bool b => .ok (if b then 1 else 0)
  | .str s => pyIntOfString s
  | _ => .error .typeError

/-- Python `"k" in v` for a string key: dict key membership, list element
membership, substring test on strings; `TypeError` otherwise. -/
def pyContains (v : JVal) (k : String) : Except PyErr Bool :=
  match v with
  | .obj kvs => .ok (jLookup kvs k).isSome
  | .arr xs => .ok (xs.any (fun x => jEqStr x k))
  | .str s => .ok (pyStrContains s k)
  | _ => .error .typeError

/-- Python `v["k"]` with a string key: dict lookup (`KeyError` if absent),
`TypeError` on non-dicts. -/
def pySubscript (v : JVal) (k : String) : Except PyErr JVal :=
  match v with
  | .obj kvs =>
    match jLookup kvs k with
    | some x => .ok x
    | none => .error .keyError
  | _ => .error .typeError

/-- Python `v.get(k, d)`: only dicts have `.get` (`AttributeError` otherwise). -/
def pyDictGetD (v : JVal) (k : String) (d : JVal) : Except PyErr JVal :=
  match v with
  | .obj kvs => .ok ((jLookup kvs k).getD d)
  | _ => .error .attrError

/-- Python `v.get(k)` (default `None`). -/
def pyDictGet (v : JVal) (k : String) : Except PyErr JVal :=
  pyDictGetD v k .null

/-- Python `len(v)`. -/
def pyLen : JVal → Except PyErr Nat
  | .arr xs => .ok xs.length
  | .str s => .ok s.length
  | .obj kvs => .ok kvs.length
  | _ => .error .typeError

/-- Python iteration `for x in v` (lists yield elements, strings yield
one-character strings, dicts yield keys). -/
def pyIter : JVal → Except PyErr (List JVal)
  | .arr xs => .ok xs
  | .str s => .ok (s.data.map (fun c => .str (String.mk [c])))
  | .obj kvs => .ok (kvs.map (fun p => .str p.1))
  | _ => .error .typeError

/-- Python `v > bound` against a numeric literal: numbers and bools compare,
anything else raises `TypeError`. -/
def pyGtNum (v : JVal) (bound : ℚ) : Except PyErr Bool :=
  match v with
  | .num q => .ok (decide (bound < q))
  | .bool b => .ok (decide (bound < if b then (1 : ℚ) else 0))
  | _ => .error .typeError

/-- Python `isinstance(v, list)`. -/
def isList : JVal → Bool
  | .arr _ => true
  | _ => false

/-- Python `isinstance(v, dict)`. -/
def isDict : JVal → Bool
  | .obj _ => true
  | _ => false

/-! ## Data model (src/models.py) and the HTTP oracle -/

/-- A row of the `Server` table (src/models.py). Optional text columns model
nullable fields; `api_endpoint` participates in Python truthiness tests. -/
structure Server where
  id : Nat
  hostname : String := ""
  ip_address : String := ""
  port : Nat := 80
  role : String := "origin"
  status : String := "unknown"
  api_endpoint : Option String := none
  api_type : String := "srs"
  api_token : Option String := none
  api_username : Option String := none
  api_password : Option String := none

/-- Truthiness of an optional string column (`None` and `""` are falsy). -/
def optStrTruthy : Option String → Bool
  | none => false
  | some s => !(s == "")

/-- An HTTP response as seen by `requests`: status code, raw text body, the
result of attempting to decode the body as JSON (`none` means `.json()`
raises), and the wall-clock latency the caller measures around the request. -/
structure HttpResponse where
  status : Nat
  text : String := ""
  json : Option JVal := none
  latencyMs : ℚ := 0

/-- Outcome of one `requests.get` call: a response, a
`requests.exceptions.RequestException` (DNS/connect/timeout), or any other
unexpected exception raised by the request machinery. -/
inductive FetchResult where
  | resp (r : HttpResponse)
  | reqExc (msg : String)
  | otherExc (msg : String)

/-- The network oracle: what each URL returns during one collection cycle. -/
def Network := String → FetchResult

/-- `response.json()`: the decoded body, or a raise when it does not parse. -/
def respJson (r : HttpResponse) : Except PyErr JVal :=
  match r.json with
  | some v => .ok v
  | none => .error .valueError

/-- The `metrics` dict built by `get_server_metrics`. The first nine keys are
always present (initialised at the top of the function); the four bandwidth
keys are only added by the SRS code paths, hence `Option`. -/
structure Metrics where
  active_connections : JVal := .num 0
  hls_connections : JVal := .num 0
  cpu_usage : JVal := .null
  memory_usage : JVal := .null
  memory_total : JVal := .null
  memory_used : JVal := .null
  uptime : JVal := .null
  response_time : JVal := .null
  error_count : JVal := .num 0
  bandwidth_in : Option JVal := none
  bandwidth_out : Option JVal := none
  bytes_received : Option JVal := none
  bytes_sent : Option JVal := none

/-- A row of the `ServerMetric` table. Fields not passed to the constructor in
`collect_server_metrics` keep their column defaults (src/models.py). -/
structure ServerMetric where
  server_id : Nat
  cpu_usage : JVal := .null
  memory_usage : JVal := .null
  memory_total : JVal := .null
  memory_used : JVal := .null
  active_connections : JVal := .num 0
  hls_connections : JVal := .num 0
  bytes_sent : JVal := .num 0
  bytes_received : JVal := .num 0
  bandwidth_in : JVal := .num 0
  bandwidth_out : JVal := .num 0
  stream_count : JVal := .num 0
  uptime : JVal := .null
  response_time : JVal := .null
  error_count : JVal := .num 0

/-- A row of the `Alert` table. -/
structure Alert where
  server_id : Nat
  alert_type : String
  severity : String := "warning"
  message : String := ""
  acknowledged : Bool := false

/-- The persistence store: server registry, metric time series, alert table. -/
structure DB where
  servers : List Server := []
  metrics : List ServerMetric := []
  alerts : List Alert := []

/-! ## The state-preserving exception monad for dict-mutating code -/

/-- Result of running a block that mutates the `metrics` dict: either normal
completion or an exception; in both cases the dict state at that point is
kept (CPython mutations survive a raise). -/
inductive PyResult (α : Type) where
  | ok (a : α) (m : Metrics)
  | exc (e : PyErr) (m : Metrics)

/-- A computation over the `metrics` dict that may raise. -/
def PyM (α : Type) := Metrics → PyResult α

def PyM.pure (a : α) : PyM α := fun m => .ok a m

def PyM.bind (x : PyM α) (f : α → PyM β) : PyM β := fun m =>
  match x m with
  | .ok a m1 => f a m1
  | .exc e m1 => .exc e m1

/-- Run a pure fallible computation (no dict access). -/
def PyM.lift (e : Except PyErr α) : PyM α := fun m =>
  match e with
  | .ok a => .ok a m
  | .error err => .exc err m

/-- A dict assignment `metrics[...] = ...`. -/
def PyM.mod (f : Metrics → Metrics) : PyM Unit := fun m => .ok () (f m)

/-- `try: act except Exception: hdl` — the handler sees the dict state at the
raise point. -/
def PyM.attempt (act : PyM Unit) (hdl : PyM Unit) : PyM Unit := fun m =>
  match act m with
  | .ok _ m1 => .ok () m1
  | .exc _ m1 => hdl m1

/-- One `requests.get(url, ...)` inside `get_server_metrics`: a transport
failure raises `RequestException`; an unexpected failure raises some other
exception; both are caught by the enclosing handlers. -/
def PyM.fetch (net : Network) (url : String) : PyM HttpResponse := fun m =>
  match net url with
  | .resp r => .ok r m
  | .reqExc _ => .exc .reqError m
  | .otherExc _ => .exc .otherError m

/-! ## test_server_connectivity (src/monitoring.py lines 11-50) -/

/-- Return value of `test_server_connectivity`. -/
structure ProbeResult where
  success : Bool
  response_time : Option ℚ := none
  error : Option String := none

/-- The URL the connectivity probe targets: the API endpoint when configured
(truthy), else `http://ip:port`. -/
def connectUrl (server : Server) : String :=
  if optStrTruthy server.api_endpoint then server.api_endpoint.getD ""
  else "http://" ++ server.ip_address ++ ":" ++ toString server.port

/-- The pure core of `test_server_connectivity`: classify the probe outcome and
produce the updated server row. HTTP 200 means up; any other status or a
transport failure means down; an unexpected failure means unknown. -/
def probeServer (net : Network) (server : Server) : Server × ProbeResult :=
  match net (connectUrl server) with
  | .resp r =>
    if r.status == 200 then
      ({ server with status := "up" },
       { success := true, response_time := some r.latencyMs })
    else
      ({ server with status := "down" },
       { success := false, error := some ("HTTP " ++ toString r.status) })
  | .reqExc msg =>
    ({ server with status := "down" }, { success := false, error := some msg })
  | .otherExc msg =>
    ({ server with status := "unknown" }, { success := false, error := some msg })

/-- `db.session.commit()` after mutating a server row: the updated row replaces
every row with its id. -/
def commitServer (db : DB) (s : Server) : DB :=
  { db with servers := db.servers.map (fun t => if t.id == s.id then s else t) }

/-- `test_server_connectivity(server)`: classifies the outcome and persists the
updated status inside the call (every branch commits before returning). -/
def test_server_connectivity (net : Network) (db : DB) (server : Server) :
    DB × Server × ProbeResult :=
  let sr := probeServer net server
  (commitServer db sr.1, sr.1, sr.2)

/-! ## get_server_metrics (src/monitoring.py lines 52-221) -/

/-- List indexing `xs[i]` (raises `IndexError` out of range). -/
def pyIndex (xs : List α) (i : Nat) : Except PyErr α :=
  match xs[i]? with
  | some a => .ok a
  | none => .error .indexError

/-- The four running totals of the SRS streams loop (lines 103-106). -/
structure StreamTotals where
  tin : ℚ := 0
  tout : ℚ := 0
  tsent : Int := 0
  trecv : Int := 0

/-- The body of `for stream in streams_list` (lines 119-136): sum
`kbps.recv_30s` and `kbps.send_30s` into the bandwidth totals and
`bytes.recv` / `bytes.send` into the byte totals, raising on malformed
entries. -/
def accumStreams : List JVal → StreamTotals → Except PyErr StreamTotals
  | [], t => .ok t
  | stream :: rest, t => do
    let hasK ← pyContains stream "kbps"
    let t ←
      if hasK then do
        let kbps_data ← pySubscript stream "kbps"
        let hasR ← pyContains kbps_data "recv_30s"
        let t ←
          if hasR then do
            let v ← pySubscript kbps_data "recv_30s"
            let q ← pyFloat v
            Except.ok { t with tin := t.tin + q }
          else Except.ok t
        let hasS ← pyContains kbps_data "send_30s"
        if hasS then do
          let v ← pySubscript kbps_data "send_30s"
          let q ← pyFloat v
          Except.ok { t with tout := t.tout + q }
        else Except.ok t
      else Except.ok t
    let hasB ← pyContains stream "bytes"
    let t ←
      if hasB then do
        let bytes_data ← pySubscript stream "bytes"
        let hasRv ← pyContains bytes_data "recv"
        let t ←
          if hasRv then do
            let v ← pySubscript bytes_data "recv"
            let i ← pyInt v
            Except.ok { t with trecv := t.trecv + i }
          else Except.ok t
        let hasSd ← pyContains bytes_data "send"
        if hasSd then do
          let v ← pySubscript bytes_data "send"
          let i ← pyInt v
          Except.ok { t with tsent := t.tsent + i }
        else Except.ok t
      else Except.ok t
    accumStreams rest t

/-- Lines 109-115: pick the stream list out of the three accepted response
shapes (`streams` key, bare array, nested `data.streams`); `none` models the
Python `streams_list = None` case. -/
def findStreamsList (streams_data : JVal) : Except PyErr (Option JVal) := do
  let h1 ← pyContains streams_data "streams"
  if h1 then do
    let v ← pySubscript streams_data "streams"
    Except.ok (some v)
  else if isList streams_data then
    Except.ok (some streams_data)
  else do
    let h2 ← pyContains streams_data "data"
    if h2 then do
      let d ← pySubscript streams_data "data"
      let h3 ← pyContains d "streams"
      if h3 then do
        let v ← pySubscript d "streams"
        Except.ok (some v)
      else Except.ok none
    else Except.ok none

/-- Lines 117-136: run the accumulation loop when `streams_list` is truthy,
else leave the totals at zero. -/
def streamsTotals (streams_list : Option JVal) : Except PyErr StreamTotals :=
  match streams_list with
  | some sl =>
    if truthy sl then do
      let items ← pyIter sl
      accumStreams items {}
    else Except.ok {}
  | none => Except.ok {}

/-- The protected streams enrichment (lines 97-144): fetch
`{endpoint}/api/v1/streams`; on HTTP 200 decode, locate the stream list, sum
the per-stream counters and store all four bandwidth keys (zeros when no list
was found). On any other status do nothing. Any raise escapes to the
enclosing handler. -/
def srsStreamsBody (net : Network) (endpoint : String) : PyM Unit :=
  (PyM.fetch net (endpoint ++ "/api/v1/streams")).bind fun streams_response =>
  if streams_response.status == 200 then
    (PyM.lift (respJson streams_response)).bind fun streams_data =>
    (PyM.lift (findStreamsList streams_data)).bind fun streams_list =>
    (PyM.lift (streamsTotals streams_list)).bind fun t =>
    PyM.mod fun m =>
      { m with
        bandwidth_in := some (.num (t.tin / 1000))
        bandwidth_out := some (.num (t.tout / 1000))
        bytes_received := some (.num (t.trecv : ℚ))
        bytes_sent := some (.num (t.tsent : ℚ)) }
  else
    PyM.pure ()

/-- Lines 160-165 of the summaries fallback: read `kbps.recv_30s` and
`kbps.send_30s` from the single `data` object, each assigned as soon as it is
parsed. -/
def fallbackKbps (data_section : JVal) : PyM Unit :=
  (PyM.lift (pyContains data_section "kbps")).bind fun hasK =>
  if hasK then
    (PyM.lift (pySubscript data_section "kbps")).bind fun kbps_data =>
    ((PyM.lift (pyContains kbps_data "recv_30s")).bind fun hasR =>
     if hasR then
       (PyM.lift (pySubscript kbps_data "recv_30s")).bind fun v =>
       (PyM.lift (pyFloat v)).bind fun q =>
       PyM.mod fun m => { m with bandwidth_in := some (.num (q / 1000)) }
     else PyM.pure ()).bind fun _ =>
    (PyM.lift (pyContains kbps_data "send_30s")).bind fun hasS =>
    if hasS then
      (PyM.lift (pySubscript kbps_data "send_30s")).bind fun v =>
      (PyM.lift (pyFloat v)).bind fun q =>
      PyM.mod fun m => { m with bandwidth_out := some (.num (q / 1000)) }
    else PyM.pure ()
  else PyM.pure ()

/-- Lines 167-172 of the summaries fallback: read `bytes.recv` and
`bytes.send` from the `data` object. -/
def fallbackBytes (data_section : JVal) : PyM Unit :=
  (PyM.lift (pyContains data_section "bytes")).bind fun hasB =>
  if hasB then
    (PyM.lift (pySubscript data_section "bytes")).bind fun bytes_data =>
    ((PyM.lift (pyContains bytes_data "recv")).bind fun hasR =>
     if hasR then
       (PyM.lift (pySubscript bytes_data "recv")).bind fun v =>
       (PyM.lift (pyInt v)).bind fun i =>
       PyM.mod fun m => { m with bytes_received := some (.num (i : ℚ)) }
     else PyM.pure ()).bind fun _ =>
    (PyM.lift (pyContains bytes_data "send")).bind fun hasS =>
    if hasS then
      (PyM.lift (pySubscript bytes_data "send")).bind fun v =>
      (PyM.lift (pyInt v)).bind fun i =>
      PyM.mod fun m => { m with bytes_sent := some (.num (i : ℚ)) }
    else PyM.pure ()
  else PyM.pure ()

/-- The summaries fallback (lines 149-174), reached only from the `except`
handler of the streams enrichment: fetch `{endpoint}/api/v1/summaries`; on 200
with a dict `data` section read the same bandwidth and byte fields field by
field. Its own failures are swallowed (inner `except`), keeping whatever was
assigned before the raise. -/
def summariesFallback (net : Network) (endpoint : String) : PyM Unit :=
  PyM.attempt
    ((PyM.fetch net (endpoint ++ "/api/v1/summaries")).bind fun stats_response =>
     if stats_response.status == 200 then
       (PyM.lift (respJson stats_response)).bind fun stats_data =>
       (PyM.lift (pyContains stats_data "data")).bind fun hasData =>
       if hasData then
         (PyM.lift (pySubscript stats_data "data")).bind fun dcheck =>
         if isDict dcheck then
           (PyM.lift (pySubscript stats_data "data")).bind fun data_section =>
           (fallbackKbps data_section).bind fun _ =>
           fallbackBytes data_section
         else PyM.pure ()
       else PyM.pure ()
     else PyM.pure ())
    (PyM.pure ())

/-- `len([c for c in clients if c.get('type') == 'hls'])` (line 92). -/
def countHls : List JVal → Except PyErr Nat
  | [] => .ok 0
  | c :: rest => do
    let t ← pyDictGet c "type"
    let k ← countHls rest
    Except.ok ((if jEqStr t "hls" then 1 else 0) + k)

/-- The SRS dialect (lines 82-174): fetch `{endpoint}/api/v1/clients`; on 200
set connection counts and the measured response time, then attempt the streams
enrichment, falling back to the summaries endpoint if the enrichment raises. -/
def srsBranch (net : Network) (endpoint : String) : PyM Unit :=
  (PyM.fetch net (endpoint ++ "/api/v1/clients")).bind fun response =>
  if response.status == 200 then
    (PyM.lift (respJson response)).bind fun data =>
    (PyM.lift (pyDictGetD data "clients" (.arr []))).bind fun clients =>
    (PyM.lift (pyLen clients)).bind fun n =>
    (PyM.mod fun m => { m with active_connections := .num n }).bind fun _ =>
    (PyM.lift (pyIter clients)).bind fun items =>
    (PyM.lift (countHls items)).bind fun hls =>
    (PyM.mod fun m => { m with hls_connections := .num hls }).bind fun _ =>
    (PyM.mod fun m => { m with response_time := .num response.latencyMs }).bind fun _ =>
    PyM.attempt (srsStreamsBody net endpoint) (summariesFallback net endpoint)
  else PyM.pure ()

/-- One line of the NGINX stub_status parse loop (lines 184-191): a line
containing "Active connections:" assigns the integer after the colon; an
all-digit line with at least three whitespace tokens would assign its first
token. -/
def nginxLineStep (line : String) : PyM Unit :=
  if pyStrContains line "Active connections:" then
    (PyM.lift (pyIndex (pySplitChar line ':') 1)).bind fun tok =>
    (PyM.lift (pyIntOfString (pyStrip tok))).bind fun v =>
    PyM.mod fun m => { m with active_connections := .num v }
  else if pyIsdigitStr (pyStrip line) then
    let parts := pySplitWs (pyStrip line)
    if parts.length ≥ 3 then
      (PyM.lift (pyIntOfString (parts.getD 0 ""))).bind fun v =>
      PyM.mod fun m => { m with active_connections := .num v }
    else PyM.pure ()
  else PyM.pure ()

/-- The stub_status line loop. -/
def nginxLines : List String → PyM Unit
  | [] => PyM.pure ()
  | line :: rest => (nginxLineStep line).bind fun _ => nginxLines rest

/-- The NGINX dialect (lines 176-193): fetch the endpoint; on 200 parse the
line-oriented status text, then record the measured response time. -/
def nginxBranch (net : Network) (endpoint : String) : PyM Unit :=
  (PyM.fetch net endpoint).bind fun response =>
  if response.status == 200 then
    (nginxLines (pySplitChar (pyStrip response.text) '\n')).bind fun _ =>
    PyM.mod fun m => { m with response_time := .num response.latencyMs }
  else PyM.pure ()

/-- The generic dialect (lines 195-212): fetch the endpoint; on 200 record the
response time, then opportunistically read `connections`, `cpu` and `memory`
from a JSON body, swallowing any parse failure. -/
def genericBranch (net : Network) (endpoint : String) : PyM Unit :=
  (PyM.fetch net endpoint).bind fun response =>
  if response.status == 200 then
    (PyM.mod fun m => { m with response_time := .num response.latencyMs }).bind fun _ =>
    PyM.attempt
      ((PyM.lift (respJson response)).bind fun data =>
       (PyM.lift (pyContains data "connections")).bind fun h1 =>
       ((if h1 then
           (PyM.lift (pySubscript data "connections")).bind fun v =>
           PyM.mod fun m => { m with active_connections := v }
         else PyM.pure ()) : PyM Unit).bind fun _ =>
       (PyM.lift (pyContains data "cpu")).bind fun h2 =>
       ((if h2 then
           (PyM.lift (pySubscript data "cpu")).bind fun v =>
           PyM.mod fun m => { m with cpu_usage := v }
         else PyM.pure ()) : PyM Unit).bind fun _ =>
       (PyM.lift (pyContains data "memory")).bind fun h3 =>
       if h3 then
         (PyM.lift (pySubscript data "memory")).bind fun v =>
         PyM.mod fun m => { m with memory_usage := v }
       else PyM.pure ())
      (PyM.pure ())
  else PyM.pure ()

/-- `get_server_metrics(server)`: start from the all-default dict; return it
untouched when no API endpoint is configured; otherwise run the dialect branch
chosen by `api_type`, and on any escaping exception set `error_count = 1` on
the dict state reached at the raise point. -/
def get_server_metrics (net : Network) (server : Server) : Metrics :=
  let metrics : Metrics := {}
  if !optStrTruthy server.api_endpoint then metrics
  else
    let endpoint := server.api_endpoint.getD ""
    let body : PyM Unit :=
      if server.api_type == "srs" then srsBranch net endpoint
      else if server.api_type == "nginx" then nginxBranch net endpoint
      else genericBranch net endpoint
    match body metrics with
    | .ok _ m => m
    | .exc _ m => { m with error_count := .num 1 }

/-! ## check_server_alerts (src/monitoring.py lines 279-351) -/

/-- Decimal digits of a positive number, most significant first (`fuel`-bounded
division loop). -/
def natToChars : Nat → Nat → List Char
  | 0, _ => []
  | fuel + 1, n => if n = 0 then [] else natToChars fuel (n / 10) ++ [Nat.digitChar (n % 10)]

/-- Render a natural number in decimal. -/
def natToString (n : Nat) : String :=
  if n = 0 then "0" else String.mk (natToChars (n + 1) n)

/-- Render an integer in decimal. -/
def intToString (i : Int) : String :=
  if i < 0 then "-" ++ natToString i.natAbs else natToString i.natAbs

/-- Left-pad with zeros to the given width. -/
def padZeros (w : Nat) (s : String) : String :=
  String.mk (List.replicate (w - s.length) '0') ++ s

/-- Fixed-point rendering, as the f-string conversions `:.1f` / `:.0f`. -/
def fmtFixed (decimals : Nat) (q : ℚ) : String :=
  let scaled : Int := round (q * (10 : ℚ) ^ decimals)
  if decimals = 0 then intToString scaled
  else
    let sign := if scaled < 0 then "-" else ""
    let a := scaled.natAbs
    sign ++ natToString (a / 10 ^ decimals) ++ "." ++
      padZeros decimals (natToString (a % 10 ^ decimals))

/-- Fixed-point rendering of a metric value (only applied to values that
already passed the numeric threshold comparison). -/
def jNumFmt (decimals : Nat) : JVal → String
  | .num q => fmtFixed decimals q
  | .bool b => fmtFixed decimals (if b then 1 else 0)
  | _ => ""

def downMsg (server : Server) : String :=
  "Server " ++ server.hostname ++ " is down and not responding to health checks."

def cpuMsg (server : Server) (md : Metrics) : String :=
  "High CPU usage on " ++ server.hostname ++ ": " ++ jNumFmt 1 md.cpu_usage ++ "%"

def memMsg (server : Server) (md : Metrics) : String :=
  "High memory usage on " ++ server.hostname ++ ": " ++ jNumFmt 1 md.memory_usage ++ "%"

def rtMsg (server : Server) (md : Metrics) : String :=
  "Slow response time on " ++ server.hostname ++ ": " ++ jNumFmt 0 md.response_time ++ "ms"

/-- The filter of the dedup query: matching server, matching type, not yet
acknowledged. -/
def unackedP (sid : Nat) (ty : String) (a : Alert) : Bool :=
  a.server_id == sid && a.alert_type == ty && !a.acknowledged

/-- `Alert.query.filter_by(server_id=..., alert_type=..., acknowledged=False)
.first()`. -/
def findUnacked (alerts : List Alert) (sid : Nat) (ty : String) : Option Alert :=
  alerts.find? (unackedP sid ty)

/-- One alert rule: when its condition holds, query for an existing
unacknowledged alert of the same (server, type) and insert only if none
exists. -/
def applyRule (alerts : List Alert) (sid : Nat) (ty sev msg : String)
    (cond : Bool) : List Alert :=
  if cond then
    match findUnacked alerts sid ty with
    | some _ => alerts
    | none =>
      alerts ++ [{ server_id := sid, alert_type := ty, severity := sev,
                   message := msg, acknowledged := false }]
  else alerts

/-- A threshold rule condition
`metrics_data.get(key) and metrics_data[key] > bound`: short-circuit
truthiness first, then the comparison, which raises on non-numeric values. -/
def ruleCond (v : JVal) (bound : ℚ) : Except PyErr Bool :=
  if truthy v then pyGtNum v bound else .ok false

/-- The body of `check_server_alerts`, i.e. the four rules in source order
inside the single `try`: the alert list after the rules that ran, plus the
exception that aborted the remaining rules, if any. -/
def checkAlertsBody (server : Server) (md : Metrics) (alerts : List Alert) :
    List Alert × Option PyErr :=
  let a1 := applyRule alerts server.id "server_down" "critical" (downMsg server)
      (server.status == "down")
  match ruleCond md.cpu_usage 80 with
  | .error e => (a1, some e)
  | .ok b1 =>
    let a2 := applyRule a1 server.id "cpu_high" "warning" (cpuMsg server md) b1
    match ruleCond md.memory_usage 85 with
    | .error e => (a2, some e)
    | .ok b2 =>
      let a3 := applyRule a2 server.id "memory_high" "warning" (memMsg server md) b2
      match ruleCond md.response_time 5000 with
      | .error e => (a3, some e)
      | .ok b3 =>
        (applyRule a3 server.id "response_slow" "warning" (rtMsg server md) b3, none)

/-- `check_server_alerts(server, metrics_data)`: the whole rule chain runs
inside one `try/except` that logs and swallows any exception, keeping the
alerts inserted before the raise. -/
def check_server_alerts (db : DB) (server : Server) (md : Metrics) : DB :=
  { db with alerts := (checkAlertsBody server md db.alerts).1 }

/-! ## collect_server_metrics (src/monitoring.py lines 223-277) -/

/-- `connectivity_result.get('response_time')` stored into the dict. -/
def jvalOfOptQ : Option ℚ → JVal
  | some q => .num q
  | none => .null

/-- The minimal metrics dict recorded for an unreachable server
(lines 239-249). -/
def minimalMetrics : Metrics := { error_count := .num 1 }

/-- The `metrics_data` dict for one server and cycle (lines 230-249): on a
successful probe, the normalized metrics with `response_time` overwritten by
the probe's measured latency; otherwise the minimal errored dict. -/
def metricsDataFor (net : Network) (server : Server) : Metrics :=
  let sr := probeServer net server
  if sr.2.success then
    let md := get_server_metrics net sr.1
    { md with response_time := jvalOfOptQ sr.2.response_time }
  else minimalMetrics

/-- The `ServerMetric(...)` constructor call (lines 252-263); only the nine
fields listed there are passed, so the bandwidth, byte and stream-count
columns keep their defaults. -/
def mkServerMetric (sid : Nat) (md : Metrics) : ServerMetric :=
  { server_id := sid
    cpu_usage := md.cpu_usage
    memory_usage := md.memory_usage
    memory_total := md.memory_total
    memory_used := md.memory_used
    active_connections := md.active_connections
    hls_connections := md.hls_connections
    uptime := md.uptime
    response_time := md.response_time
    error_count := md.error_count }

/-- One iteration of the per-server loop: probe (which persists the status),
build the metrics dict, append exactly one `ServerMetric`, then evaluate
alerts. -/
def collectOne (net : Network) (db : DB) (server : Server) : DB :=
  let sr := probeServer net server
  let db1 := commitServer db sr.1
  let metrics_data := metricsDataFor net server
  let metric := mkServerMetric sr.1.id metrics_data
  let db2 := { db1 with metrics := db1.metrics ++ [metric] }
  check_server_alerts db2 sr.1 metrics_data

/-- `collect_server_metrics()`: iterate the per-server pipeline over the
snapshot of registered servers. -/
def collect_server_metrics (net : Network) (db : DB) : DB :=
  db.servers.foldl (fun d s => collectOne net d s) db

/-! ## Concrete cycle inputs used by the claim theorems -/

/-- SRS server whose streams endpoint returns the bandwidth example from the
spec. -/
def srvC1 : Server :=
  { id := 1, hostname := "edge1", api_endpoint := some "http://s", api_type := "srs" }

/-- Network for the SRS bandwidth example: clients returns an empty list,
streams returns one stream with kbps counters, the probe URL returns 200. -/
def netC1 : Network := fun url =>
  if url = "http://s/api/v1/clients" then
    .resp { status := 200, json := some (.obj [("clients", .arr [])]), latencyMs := 10 }
  else if url = "http://s/api/v1/streams" then
    .resp { status := 200,
            json := some (.obj [("streams", .arr [.obj [("kbps",
              .obj [("recv_30s", .str "2000"), ("send_30s", .str "1000")])]])]),
            latencyMs := 5 }
  else if url = "http://s" then
    .resp { status := 200, latencyMs := 7 }
  else .reqExc "unreachable"

/-! ## Helper lemmas about the alert store -/

/-- Number of unacknowledged alerts for one (server, type). -/
def unackedCount (alerts : List Alert) (sid : Nat) (ty : String) : Nat :=
  alerts.countP (unackedP sid ty)

/-- The dedup invariant: at most one unacknowledged alert per (server, type). -/
def AlertDedupInv (alerts : List Alert) : Prop :=
  ∀ sid ty, unackedCount alerts sid ty ≤ 1

lemma findUnacked_none_iff (alerts : List Alert) (sid : Nat) (ty : String) :
    findUnacked alerts sid ty = none ↔ unackedCount alerts sid ty = 0 := by
  simp [findUnacked, unackedCount, List.find?_eq_none, List.countP_eq_zero]

lemma unackedCount_append (alerts : List Alert) (a : Alert) (sid : Nat) (ty : String) :
    unackedCount (alerts ++ [a]) sid ty
      = unackedCount alerts sid ty + (if unackedP sid ty a then 1 else 0) := by
  simp [unackedCount, List.countP_append, List.countP_cons]

lemma applyRule_count_other (alerts : List Alert) (sid2 : Nat) (ty2 sev msg : String)
    (c : Bool) (sid : Nat) (ty : String) (h : sid2 ≠ sid ∨ ty2 ≠ ty) :
    unackedCount (applyRule alerts sid2 ty2 sev msg c) sid ty
      = unackedCount alerts sid ty := by
  unfold applyRule
  split
  · split
    · rfl
    · rw [unackedCount_append]
      have hp : unackedP sid ty
          { server_id := sid2, alert_type := ty2, severity := sev,
            message := msg, acknowledged := false } = false := by
        rcases h with h | h <;> simp [unackedP, h]
      rw [hp]
      simp
  · rfl

lemma applyRule_le_one (alerts : List Alert) (sid : Nat) (ty sev msg : String)
    (c : Bool) (h : unackedCount alerts sid ty ≤ 1) :
    unackedCount (applyRule alerts sid ty sev msg c) sid ty ≤ 1 := by
  unfold applyRule
  split
  · split
    · exact h
    · rename_i hf
      rw [unackedCount_append, (findUnacked_none_iff alerts sid ty).mp hf]
      split <;> norm_num
  · exact h

lemma applyRule_stable_one (alerts : List Alert) (sid2 : Nat) (ty2 sev msg : String)
    (c : Bool) (sid : Nat) (ty : String) (h : unackedCount alerts sid ty = 1) :
    unackedCount (applyRule alerts sid2 ty2 sev msg c) sid ty = 1 := by
  by_cases heq : sid2 = sid ∧ ty2 = ty
  · obtain ⟨h1, h2⟩ := heq
    subst h1
    subst h2
    unfold applyRule
    split
    · split
      · exact h
      · rename_i hf
        rw [findUnacked_none_iff] at hf
        omega
    · exact h
  · rw [applyRule_count_other alerts sid2 ty2 sev msg c sid ty (not_and_or.mp heq)]
    exact h

lemma applyRule_from_zero (alerts : List Alert) (sid : Nat) (ty sev msg : String)
    (h : unackedCount alerts sid ty = 0) :
    unackedCount (applyRule alerts sid ty sev msg true) sid ty = 1 := by
  unfold applyRule
  rw [(findUnacked_none_iff alerts sid ty).mpr h]
  simp only [if_true]
  rw [unackedCount_append, h]
  simp [unackedP]

lemma applyRule_preserves_inv (alerts : List Alert) (sid : Nat) (ty sev msg : String)
    (c : Bool) (h : AlertDedupInv alerts) :
    AlertDedupInv (applyRule alerts sid ty sev msg c) := by
  intro sid2 ty2
  by_cases heq : sid = sid2 ∧ ty = ty2
  · obtain ⟨h1, h2⟩ := heq
    subst h1
    subst h2
    exact applyRule_le_one alerts sid ty sev msg c (h sid ty)
  · rw [applyRule_count_other alerts sid ty sev msg c sid2 ty2 (not_and_or.mp heq)]
    exact h sid2 ty2

/-- Every per-rule step preserves any property preserved by `applyRule`, hence
so does the whole rule chain regardless of which rule (if any) raises. -/
lemma checkAlertsBody_preserves (server : Server) (md : Metrics)
    (P : List Alert → Prop)
    (hstep : ∀ alerts sid ty sev msg c, P alerts → P (applyRule alerts sid ty sev msg c))
    (alerts : List Alert) (h : P alerts) :
    P (checkAlertsBody server md alerts).1 := by
  unfold checkAlertsBody
  rcases h1 : ruleCond md.cpu_usage 80 with e | b1 <;> simp only [h1]
  · exact hstep _ _ _ _ _ _ h
  · rcases h2 : ruleCond md.memory_usage 85 with e | b2 <;> simp only [h2]
    · exact hstep _ _ _ _ _ _ (hstep _ _ _ _ _ _ h)
    · rcases h3 : ruleCond md.response_time 5000 with e | b3 <;> simp only [h3]
      · exact hstep _ _ _ _ _ _ (hstep _ _ _ _ _ _ (hstep _ _ _ _ _ _ h))
      · exact hstep _ _ _ _ _ _ (hstep _ _ _ _ _ _ (hstep _ _ _ _ _ _ (hstep _ _ _ _ _ _ h)))

lemma ruleCond_num {q bound : ℚ} (h0 : q ≠ 0) :
    ruleCond (.num q) bound = .ok (decide (bound < q)) := by
  simp [ruleCond, truthy, pyGtNum, h0]

/-! ## Helper lemmas about the orchestrator -/

lemma probeServer_id (net : Network) (server : Server) :
    (probeServer net server).1.id = server.id := by
  unfold probeServer
  rcases h : net (connectUrl server) with r | m | m <;> simp only [h]
  by_cases hs : (r.status == 200) = true <;> simp [hs]

lemma collectOne_metrics (net : Network) (db : DB) (s : Server) :
    (collectOne net db s).metrics
      = db.metrics ++ [mkServerMetric (probeServer net s).1.id (metricsDataFor net s)] := rfl

lemma collect_metrics_fold (net : Network) :
    ∀ (l : List Server) (db : DB),
      (l.foldl (fun d s => collectOne net d s) db).metrics
        = db.metrics
            ++ l.map (fun s => mkServerMetric (probeServer net s).1.id (metricsDataFor net s)) := by
  intro l
  induction l with
  | nil => intro db; simp
  | cons s rest ih =>
    intro db
    rw [List.foldl_cons, ih (collectOne net db s), collectOne_metrics]
    simp

/-! ## Claim theorems -/

/-- Claim C5: the probe classifies HTTP 200 as success with status `up`; any
non-200 as failure with the status code as error detail (status `down`); any
transport failure as failure with status `down`; any other failure as status
`unknown`; and in every branch the updated status is persisted within the
probe call itself. -/
theorem C5_probe_classification (net : Network) (db : DB) (server : Server) :
    (∀ r, net (connectUrl server) = .resp r → r.status = 200 →
      (test_server_connectivity net db server).2.1.status = "up" ∧
      (test_server_connectivity net db server).2.2.success = true ∧
      (test_server_connectivity net db server).2.2.response_time = some r.latencyMs) ∧
    (∀ r, net (connectUrl server) = .resp r → r.status ≠ 200 →
      (test_server_connectivity net db server).2.1.status = "down" ∧
      (test_server_connectivity net db server).2.2.success = false ∧
      (test_server_connectivity net db server).2.2.error
        = some ("HTTP " ++ toString r.status)) ∧
    (∀ msg, net (connectUrl server) = .reqExc msg →
      (test_server_connectivity net db server).2.1.status = "down" ∧
      (test_server_connectivity net db server).2.2.success = false ∧
      (test_server_connectivity net db server).2.2.error = some msg) ∧
    (∀ msg, net (connectUrl server) = .otherExc msg →
      (test_server_connectivity net db server).2.1.status = "unknown" ∧
      (test_server_connectivity net db server).2.2.success = false) ∧
    (∀ t, t ∈ (test_server_connectivity net db server).1.servers →
      t.id = server.id →
      t.status = (test_server_connectivity net db server).2.1.status) := by
  refine ⟨?_, ?_, ?_, ?_, ?_⟩
  · intro r hr h200
    simp [test_server_connectivity, probeServer, hr, h200]
  · intro r hr h200
    have hb : (r.status == 200) = false := by simpa using h200
    simp [test_server_connectivity, probeServer, hr, hb]
  · intro msg hm
    simp [test_server_connectivity, probeServer, hm]
  · intro msg hm
    simp [test_server_connectivity, probeServer, hm]
  · intro t ht hid
    have hmem : t ∈ (commitServer db (probeServer net server).1).servers := ht
    rcases List.mem_map.mp hmem with ⟨u, hu, hEq⟩
    by_cases hcase : (u.id == (probeServer net server).1.id) = true
    · rw [← hEq]
      simp [hcase, test_server_connectivity]
    · exfalso
      rw [← hEq] at hid
      simp only [hcase, if_false, Bool.false_eq_true] at hid
      rw [probeServer_id net server] at hcase
      simp [hid] at hcase

/-- Witness for C5: a server probed at HTTP 200 ends up with status `up`,
persisted in the store. -/
theorem C5_witness :
    (test_server_connectivity
        (fun url => if url = "http://w5" then .resp { status := 200, latencyMs := 3 }
                    else .reqExc "x")
        { servers := [{ id := 2, api_endpoint := some "http://w5" }] }
        { id := 2, api_endpoint := some "http://w5" }).2.1.status = "up" :=
  ((C5_probe_classification
      (fun url => if url = "http://w5" then .resp { status := 200, latencyMs := 3 }
                  else .reqExc "x")
      { servers := [{ id := 2, api_endpoint := some "http://w5" }] }
      { id := 2, api_endpoint := some "http://w5" }).1
    { status := 200, latencyMs := 3 }
    (by simp [connectUrl, optStrTruthy]) rfl).1

/-- Claim C9: for a reachable server, the persisted sample's response time is
the connectivity probe's measured latency (the orchestrator overwrites the
normalizer's value before building the `ServerMetric`). -/
theorem C9_response_time_overwrite (net : Network) (server : Server)
    (r : HttpResponse) (hnet : net (connectUrl server) = .resp r)
    (h200 : r.status = 200) :
    (metricsDataFor net server).response_time = .num r.latencyMs ∧
    (mkServerMetric (probeServer net server).1.id
        (metricsDataFor net server)).response_time = .num r.latencyMs := by
  have hmd : (metricsDataFor net server).response_time = .num r.latencyMs := by
    simp [metricsDataFor, probeServer, hnet, h200, jvalOfOptQ]
  exact ⟨hmd, hmd⟩

/-- Witness for C9: the probe measures 7 ms while the metrics fetch measures
999 ms; the dict that feeds the persisted sample carries 7. -/
theorem C9_witness :
    (metricsDataFor
        (fun url => if url = "http://w9" then .resp { status := 200, latencyMs := 7 }
                    else .resp { status := 200, latencyMs := 999 })
        { id := 3, api_endpoint := some "http://w9", api_type := "nginx" }).response_time
      = .num 7 :=
  (C9_response_time_overwrite
      (fun url => if url = "http://w9" then .resp { status := 200, latencyMs := 7 }
                  else .resp { status := 200, latencyMs := 999 })
      { id := 3, api_endpoint := some "http://w9", api_type := "nginx" }
      { status := 200, latencyMs := 7 }
      (by simp [connectUrl, optStrTruthy]) rfl).1

/-- Claim C10: with no API endpoint configured, metric collection returns the
all-default dict (connection counts 0, `error_count` 0) and consults the
network for nothing. -/
theorem C10_no_endpoint_no_error (net : Network) (server : Server)
    (h : optStrTruthy server.api_endpoint = false) :
    get_server_metrics net server = {} ∧
    ({} : Metrics).error_count = .num 0 ∧
    ({} : Metrics).active_connections = .num 0 ∧
    ({} : Metrics).hls_connections = .num 0 ∧
    (∀ net2 : Network, get_server_metrics net2 server = get_server_metrics net server) := by
  refine ⟨by simp [get_server_metrics, h], rfl, rfl, rfl, ?_⟩
  intro net2
  simp [get_server_metrics, h]

/-- Witness for C10. -/
theorem C10_witness :
    get_server_metrics (fun _ => FetchResult.reqExc "x") { id := 5 } = {} :=
  (C10_no_endpoint_no_error (fun _ => FetchResult.reqExc "x") { id := 5 } rfl).1

/-- Claim C4: every collection cycle appends exactly one `ServerMetric` per
registered server, in registry order; when the probe fails, the appended
sample is the minimal one: `error_count = 1`, all other fields at their
defaults. -/
theorem C4_one_sample_per_cycle (net : Network) (db : DB) :
    (collect_server_metrics net db).metrics
      = db.metrics
          ++ db.servers.map
              (fun s => mkServerMetric (probeServer net s).1.id (metricsDataFor net s)) ∧
    (∀ s : Server, (probeServer net s).2.success = false →
      mkServerMetric (probeServer net s).1.id (metricsDataFor net s)
        = { server_id := (probeServer net s).1.id, error_count := .num 1 }) := by
  constructor
  · exact collect_metrics_fold net db.servers db
  · intro s hs
    simp [metricsDataFor, hs, minimalMetrics, mkServerMetric]

/-- Server and network used by the C4 witness: every request fails. -/
def srvW4 : Server := { id := 3, hostname := "w4", api_endpoint := some "http://w4" }

def netW4 : Network := fun _ => .reqExc "dns down"

/-- Witness for C4: one unreachable server still yields exactly one appended
sample, the minimal one. -/
theorem C4_witness :
    (collect_server_metrics netW4 { servers := [srvW4] }).metrics
      = [{ server_id := 3, error_count := .num 1 }] := by
  have h := C4_one_sample_per_cycle netW4 { servers := [srvW4] }
  rw [h.1, List.map_cons, h.2 srvW4 rfl]
  rfl

/-- Claim C3: the evaluator preserves the at-most-one-unacknowledged-alert
invariant; an existing open alert of a (server, type) is never duplicated; and
a persisting cpu breach creates exactly one open `cpu_high` alert across two
consecutive cycles. -/
theorem C3_alert_dedup (server : Server) (md : Metrics) (alerts : List Alert)
    (hinv : AlertDedupInv alerts) :
    AlertDedupInv (checkAlertsBody server md alerts).1 ∧
    (∀ sid ty, unackedCount alerts sid ty = 1 →
      unackedCount (checkAlertsBody server md alerts).1 sid ty = 1) ∧
    (∀ q : ℚ, md.cpu_usage = .num q → 80 < q →
      unackedCount alerts server.id "cpu_high" = 0 →
      unackedCount (checkAlertsBody server md alerts).1 server.id "cpu_high" = 1 ∧
      unackedCount (checkAlertsBody server md (checkAlertsBody server md alerts).1).1
          server.id "cpu_high" = 1) := by
  have hstab : ∀ (al : List Alert) (sid : Nat) (ty : String),
      unackedCount al sid ty = 1 →
      unackedCount (checkAlertsBody server md al).1 sid ty = 1 := by
    intro al sid ty h
    exact checkAlertsBody_preserves server md (fun l => unackedCount l sid ty = 1)
      (fun alerts2 sid2 ty2 sev msg c h2 =>
        applyRule_stable_one alerts2 sid2 ty2 sev msg c sid ty h2) al h
  refine ⟨?_, fun sid ty h => hstab alerts sid ty h, ?_⟩
  · exact checkAlertsBody_preserves server md AlertDedupInv
      (fun alerts2 sid2 ty2 sev msg c h2 =>
        applyRule_preserves_inv alerts2 sid2 ty2 sev msg c h2) alerts hinv
  · intro q hq h80 h0
    have hq0 : q ≠ 0 := ne_of_gt (lt_trans (by norm_num) h80)
    have hcpu : ruleCond md.cpu_usage 80 = .ok true := by
      rw [hq, ruleCond_num hq0, decide_eq_true h80]
    have hone : ∀ al : List Alert, unackedCount al server.id "cpu_high" = 0 →
        unackedCount (checkAlertsBody server md al).1 server.id "cpu_high" = 1 := by
      intro al h0a
      have hA1 : unackedCount
          (applyRule al server.id "server_down" "critical" (downMsg server)
            (server.status == "down")) server.id "cpu_high" = 0 := by
        rw [applyRule_count_other al server.id "server_down" "critical" (downMsg server)
          (server.status == "down") server.id "cpu_high" (Or.inr (by decide))]
        exact h0a
      have hA2 := applyRule_from_zero _ server.id "cpu_high" "warning" (cpuMsg server md) hA1
      unfold checkAlertsBody
      simp only [hcpu]
      rcases h2 : ruleCond md.memory_usage 85 with e2 | b2 <;> simp only [h2]
      · exact hA2
      · rcases h3 : ruleCond md.response_time 5000 with e3 | b3 <;> simp only [h3]
        · exact applyRule_stable_one _ server.id "memory_high" "warning" (memMsg server md)
            b2 server.id "cpu_high" hA2
        · exact applyRule_stable_one _ server.id "response_slow" "warning" (rtMsg server md)
            b3 server.id "cpu_high"
            (applyRule_stable_one _ server.id "memory_high" "warning" (memMsg server md)
              b2 server.id "cpu_high" hA2)
    exact ⟨hone alerts h0, hstab _ server.id "cpu_high" (hone alerts h0)⟩

/-- Witness for C3: cpu 95 in two consecutive cycles yields one open
`cpu_high` alert after each cycle, not two. -/
theorem C3_witness :
    unackedCount (checkAlertsBody { id := 7, hostname := "w3", status := "up" }
        { cpu_usage := .num 95 } []).1 7 "cpu_high" = 1 ∧
    unackedCount (checkAlertsBody { id := 7, hostname := "w3", status := "up" }
        { cpu_usage := .num 95 }
        (checkAlertsBody { id := 7, hostname := "w3", status := "up" }
          { cpu_usage := .num 95 } []).1).1 7 "cpu_high" = 1 :=
  (C3_alert_dedup { id := 7, hostname := "w3", status := "up" }
      { cpu_usage := .num 95 } [] (fun sid ty => by simp [unackedCount])).2.2
    95 rfl (by norm_num) (by simp [unackedCount])

/-- Server and metrics dict shared by the C6 theorems: a malformed (string)
cpu value alongside a breaching numeric memory value. -/
def srvC6 : Server := { id := 6, hostname := "gen1", status := "up" }

def mdC6 : Metrics := { cpu_usage := .str "95", memory_usage := .num 95 }

/-- Claim C6 counterexample: with cpu_usage the string "95" (truthy, so the
cpu rule's comparison raises `TypeError`) and memory_usage 95 (whose rule
would fire), the evaluator inserts no alert at all: the memory rule was
blocked by the cpu rule's failure. -/
theorem C6_counterexample :
    ruleCond mdC6.memory_usage 85 = .ok true ∧
    (checkAlertsBody srvC6 mdC6 []).1 = [] ∧
    (checkAlertsBody srvC6 mdC6 []).2 = some .typeError := by
  refine ⟨?_, ?_, ?_⟩
  · show ruleCond (.num 95) 85 = .ok true
    rw [ruleCond_num (by norm_num), decide_eq_true (by norm_num)]
  · simp [checkAlertsBody, mdC6, srvC6, ruleCond, truthy, pyGtNum, applyRule, findUnacked]
  · simp [checkAlertsBody, mdC6, srvC6, ruleCond, truthy, pyGtNum, applyRule, findUnacked]

/-- Claim C6 amended: the four rules share a single try/except, so a raise
while evaluating one rule aborts the remaining rules of that invocation (the
exception is swallowed at the evaluator boundary and alerts inserted by
earlier rules are kept). -/
theorem C6_amended (server : Server) (md : Metrics) (alerts : List Alert) :
    (∀ e, ruleCond md.cpu_usage 80 = .error e →
      checkAlertsBody server md alerts
        = (applyRule alerts server.id "server_down" "critical" (downMsg server)
            (server.status == "down"), some e)) ∧
    (∀ b1 e, ruleCond md.cpu_usage 80 = .ok b1 →
      ruleCond md.memory_usage 85 = .error e →
      checkAlertsBody server md alerts
        = (applyRule
            (applyRule alerts server.id "server_down" "critical" (downMsg server)
              (server.status == "down"))
            server.id "cpu_high" "warning" (cpuMsg server md) b1, some e)) := by
  constructor
  · intro e he
    unfold checkAlertsBody
    simp only [he]
  · intro b1 e h1 h2
    unfold checkAlertsBody
    simp only [h1, h2]

/-- Witness for C6 amended: the malformed cpu field aborts the chain right
after the server-down rule. -/
theorem C6_amended_witness :
    checkAlertsBody srvC6 mdC6 []
      = (applyRule [] srvC6.id "server_down" "critical" (downMsg srvC6)
          (srvC6.status == "down"), some .typeError) :=
  (C6_amended srvC6 mdC6 []).1 .typeError rfl

/-- Claim C1 (code bug): the normalizer computes bandwidth 2.0 / 1.0 Mbps from
the spec's streams body, but the `ServerMetric(...)` call in
`collect_server_metrics` does not pass the bandwidth/byte fields, so the
appended sample carries the column defaults (0) instead of the computed
values. -/
theorem C1_bandwidth_dropped :
    (get_server_metrics netC1 srvC1).bandwidth_in = some (.num 2) ∧
    (get_server_metrics netC1 srvC1).bandwidth_out = some (.num 1) ∧
    (collect_server_metrics netC1 { servers := [srvC1] }).metrics.map
        (fun s => (s.bandwidth_in, s.bandwidth_out, s.bytes_sent, s.bytes_received))
      = [(.num 0, .num 0, .num 0, .num 0)] := by
  refine ⟨?_, ?_, ?_⟩
  · simp [get_server_metrics, srsBranch, srsStreamsBody, summariesFallback,
      PyM.bind, PyM.lift, PyM.mod, PyM.pure, PyM.fetch, PyM.attempt,
      netC1, srvC1, optStrTruthy, respJson, pyDictGetD, pyLen, pyIter, countHls,
      pyDictGet, jEqStr, jLookup, findStreamsList, streamsTotals, accumStreams,
      pyContains, pySubscript, truthy, pyFloat, pyFloatOfString, stripChars,
      pyIsSpace, splitCharAux, parseUnsignedFloat, digitsToNat, valDigits,
      isList, isDict, Except.instMonad, Except.bind, Except.pure, Except.map]
    norm_num
  · simp [get_server_metrics, srsBranch, srsStreamsBody, summariesFallback,
      PyM.bind, PyM.lift, PyM.mod, PyM.pure, PyM.fetch, PyM.attempt,
      netC1, srvC1, optStrTruthy, respJson, pyDictGetD, pyLen, pyIter, countHls,
      pyDictGet, jEqStr, jLookup, findStreamsList, streamsTotals, accumStreams,
      pyContains, pySubscript, truthy, pyFloat, pyFloatOfString, stripChars,
      pyIsSpace, splitCharAux, parseUnsignedFloat, digitsToNat, valDigits,
      isList, isDict, Except.instMonad, Except.bind, Except.pure, Except.map]
    try norm_num
  · rfl

/-- SRS network for the C2 counterexample: the streams endpoint answers with
HTTP 500 while the summaries endpoint has the bandwidth data. -/
def netC2 : Network := fun url =>
  if url = "http://s/api/v1/clients" then
    .resp { status := 200, json := some (.obj [("clients", .arr [])]), latencyMs := 10 }
  else if url = "http://s/api/v1/streams" then
    .resp { status := 500 }
  else if url = "http://s/api/v1/summaries" then
    .resp { status := 200,
            json := some (.obj [("data", .obj [("kbps", .obj [("recv_30s", .str "500")])])]) }
  else .reqExc "unreachable"

/-- Claim C2 counterexample: with a non-200 streams response and the claim's
summaries body available, the normalizer does NOT fall back: bandwidth stays
unset instead of becoming 0.5 — the fallback lives in the except handler and a
non-200 status raises nothing. -/
theorem C2_counterexample :
    (get_server_metrics netC2 srvC1).bandwidth_in = none ∧
    (get_server_metrics netC2 srvC1).bandwidth_out = none := by
  constructor <;> rfl

/-- Claim C2 amended: the summaries fallback runs exactly when the streams
sub-fetch raises (transport failure, undecodable body, or a parse error while
walking it); a non-200 streams response triggers no fallback and leaves all
four bandwidth keys unset; when the streams fetch does raise and summaries
returns the claim's body, bandwidth_in becomes 0.5 with bandwidth_out unset. -/
theorem C2_amended (net : Network) (server : Server) (e : String)
    (hep : server.api_endpoint = some e)
    (htr : optStrTruthy server.api_endpoint = true)
    (hty : server.api_type = "srs")
    (r1 : HttpResponse) (hc : net (e ++ "/api/v1/clients") = .resp r1)
    (h1s : r1.status = 200)
    (h1j : r1.json = some (.obj [("clients", .arr [])])) :
    (∀ r2, net (e ++ "/api/v1/streams") = .resp r2 → r2.status ≠ 200 →
      (get_server_metrics net server).bandwidth_in = none ∧
      (get_server_metrics net server).bandwidth_out = none ∧
      (get_server_metrics net server).bytes_received = none ∧
      (get_server_metrics net server).bytes_sent = none) ∧
    (∀ msg r3, net (e ++ "/api/v1/streams") = .reqExc msg →
      net (e ++ "/api/v1/summaries") = .resp r3 → r3.status = 200 →
      r3.json = some (.obj [("data", .obj [("kbps", .obj [("recv_30s", .str "500")])])]) →
      (get_server_metrics net server).bandwidth_in = some (.num (1 / 2)) ∧
      (get_server_metrics net server).bandwidth_out = none) := by
  have htre : optStrTruthy (some e) = true := hep ▸ htr
  constructor
  · intro r2 hs h2s
    have hb : (r2.status == 200) = false := by simpa using h2s
    refine ⟨?_, ?_, ?_, ?_⟩ <;>
      simp [get_server_metrics, srsBranch, srsStreamsBody, summariesFallback,
        PyM.bind, PyM.lift, PyM.mod, PyM.pure, PyM.fetch, PyM.attempt,
        htr, htre, hep, hty, hc, h1s, h1j, hs, hb,
        respJson, pyDictGetD, pyLen, pyIter, countHls,
        pyDictGet, jEqStr, jLookup, findStreamsList, streamsTotals, accumStreams,
        pyContains, pySubscript, truthy, isList, isDict,
        Except.instMonad, Except.bind, Except.pure, Except.map]
  · intro msg r3 hs hsum h3s h3j
    constructor <;>
    · simp [get_server_metrics, srsBranch, srsStreamsBody, summariesFallback,
        fallbackKbps, fallbackBytes,
        PyM.bind, PyM.lift, PyM.mod, PyM.pure, PyM.fetch, PyM.attempt,
        htr, htre, hep, hty, hc, h1s, h1j, hs, hsum, h3s, h3j,
        respJson, pyDictGetD, pyLen, pyIter, countHls,
        pyDictGet, jEqStr, jLookup, findStreamsList, streamsTotals, accumStreams,
        pyContains, pySubscript, truthy, isList, isDict,
        pyFloat, pyFloatOfString, stripChars, pyIsSpace, splitCharAux,
        parseUnsignedFloat, digitsToNat, valDigits,
        Except.instMonad, Except.bind, Except.pure, Except.map]
      try norm_num

/-- Network for the C2 amended witness: streams raises a transport error, and
the summaries fallback then supplies the data. -/
def netW2 : Network := fun url =>
  if url = "http://s/api/v1/clients" then
    .resp { status := 200, json := some (.obj [("clients", .arr [])]), latencyMs := 10 }
  else if url = "http://s/api/v1/streams" then
    .reqExc "boom"
  else if url = "http://s/api/v1/summaries" then
    .resp { status := 200,
            json := some (.obj [("data", .obj [("kbps", .obj [("recv_30s", .str "500")])])]) }
  else .reqExc "unreachable"

/-- Witness for C2 amended: the fallback path yields bandwidth_in = 0.5. -/
theorem C2_amended_witness :
    (get_server_metrics netW2 srvC1).bandwidth_in = some (.num (1 / 2)) :=
  ((C2_amended netW2 srvC1 "http://s" rfl rfl rfl
      { status := 200, json := some (.obj [("clients", .arr [])]), latencyMs := 10 }
      (by simp [netW2]) rfl rfl).2 "boom"
      { status := 200,
        json := some (.obj [("data", .obj [("kbps", .obj [("recv_30s", .str "500")])])]) }
      (by simp [netW2]) (by simp [netW2]) rfl rfl).1

/-! ## Helper lemmas about the NGINX numeric-fallback line -/

lemma digit_not_space (c : Char) (hd : c.isDigit = true) : pyIsSpace c = false := by
  cases hsp : pyIsSpace c
  · rfl
  · exfalso
    simp only [pyIsSpace, Bool.or_eq_true, decide_eq_true_eq] at hsp
    rcases hsp with ((((h | h) | h) | h) | h) | h <;> subst h <;>
      exact absurd hd (by decide)

lemma splitWsAux_nonspace :
    ∀ (cs acc : List Char), (∀ c ∈ cs, pyIsSpace c = false) → acc.isEmpty = false →
      splitWsAux cs acc = [acc.reverse ++ cs] := by
  intro cs
  induction cs with
  | nil =>
    intro acc h hne
    simp [splitWsAux, hne]
  | cons c rest ih =>
    intro acc h hne
    have hc : pyIsSpace c = false := h c (List.mem_cons_self c rest)
    rw [splitWsAux]
    simp only [hc, Bool.false_eq_true, if_false]
    rw [ih (c :: acc) (fun d hd => h d (List.mem_cons_of_mem c hd)) rfl]
    simp

/-- An all-digit nonempty string has no whitespace, so `str.split()` returns it
as the single token. -/
lemma pySplitWs_digits (s : String) (h : pyIsdigitStr s = true) :
    pySplitWs s = [String.mk s.data] := by
  unfold pyIsdigitStr at h
  simp only [Bool.and_eq_true] at h
  obtain ⟨hne, hall⟩ := h
  have hnsp : ∀ c ∈ s.data, pyIsSpace c = false := fun c hc =>
    digit_not_space c (List.all_eq_true.mp hall c hc)
  unfold pySplitWs
  cases hd : s.data with
  | nil =>
    rw [hd] at hne
    simp at hne
  | cons c rest =>
    rw [splitWsAux]
    have hc : pyIsSpace c = false := hnsp c (by rw [hd]; exact List.mem_cons_self c rest)
    simp only [hc, Bool.false_eq_true, if_false]
    rw [splitWsAux_nonspace rest [c]
      (fun d hdm => hnsp d (by rw [hd]; exact List.mem_cons_of_mem c hdm)) rfl]
    simp

/-- A stub_status line without the "Active connections:" label never assigns
anything: the numeric-fallback branch requires the whole stripped line to be
digits, in which case it is a single token and the three-token guard fails. -/
lemma nginxLineStep_no_label (line : String)
    (h : pyStrContains line "Active connections:" = false) :
    ∀ m, nginxLineStep line m = .ok () m := by
  intro m
  unfold nginxLineStep
  simp only [h, Bool.false_eq_true, if_false]
  by_cases hd : pyIsdigitStr (pyStrip line) = true
  · simp only [hd, if_true]
    rw [pySplitWs_digits _ hd]
    norm_num [PyM.pure]
  · simp only [hd, Bool.false_eq_true, if_false]
    rfl

lemma nginxLines_no_label :
    ∀ (lines : List String) (m : Metrics),
      (∀ l ∈ lines, pyStrContains l "Active connections:" = false) →
      nginxLines lines m = .ok () m := by
  intro lines
  induction lines with
  | nil => intro m h; rfl
  | cons l rest ih =>
    intro m h
    show PyM.bind (nginxLineStep l) (fun _ => nginxLines rest) m = .ok () m
    have h1 := nginxLineStep_no_label l (h l (List.mem_cons_self l rest)) m
    simp only [PyM.bind, h1]
    exact ih m (fun d hd => h d (List.mem_cons_of_mem l hd))

/-- NGINX server shared by the C7 and C8 theorems. -/
def srvN : Server :=
  { id := 4, hostname := "lb1", api_endpoint := some "http://n", api_type := "nginx" }

/-- Network whose stub_status body is only the numeric
accepted/handled/requests line. -/
def netC8 : Network := fun url =>
  if url = "http://n" then .resp { status := 200, text := " 16 18 20", latencyMs := 2 }
  else .reqExc "x"

/-- Claim C8 counterexample: with the labeled line absent, the claimed fallback
parse of the numeric line does not happen: active_connections stays 0 instead
of becoming 16 (and no error is recorded). -/
theorem C8_counterexample :
    (get_server_metrics netC8 srvN).active_connections = .num 0 ∧
    (get_server_metrics netC8 srvN).error_count = .num 0 := by
  constructor <;> rfl

/-- Network whose stub_status body is the labeled line of the spec example. -/
def netC8b : Network := fun url =>
  if url = "http://n" then
    .resp { status := 200, text := "Active connections: 42\n", latencyMs := 2 }
  else .reqExc "x"

/-- Claim C8 amended: the labeled line parses as claimed
(body "Active connections: 42\n" yields 42), but the numeric fallback branch is
dead code: on any line without the label the parser assigns nothing, because
`isdigit` rejects lines containing spaces and a space-free digit line has a
single token, failing the three-token guard. -/
theorem C8_amended :
    (get_server_metrics netC8b srvN).active_connections = .num 42 ∧
    (∀ (lines : List String) (m : Metrics),
      (∀ l ∈ lines, pyStrContains l "Active connections:" = false) →
      nginxLines lines m = .ok () m) := by
  constructor
  · rfl
  · exact fun lines m h => nginxLines_no_label lines m h

/-- Witness for C8 amended: the numeric accepted/handled/requests line leaves
the dict untouched. -/
theorem C8_amended_witness :
    nginxLines [" 16 18 20"] {} = .ok () {} :=
  C8_amended.2 [" 16 18 20"] {}
    (by simp [pyStrContains, containsList, startsWithList])

/-! ## Helper lemmas: no dialect branch writes error_count -/

/-- The dict state carried by a `PyResult`, whether it completed or raised. -/
def PyResult.state : PyResult α → Metrics
  | .ok _ m => m
  | .exc _ m => m

/-- A computation that never writes the `error_count` key. -/
def KeepsEC (act : PyM α) : Prop :=
  ∀ m, ((act m).state).error_count = m.error_count

lemma keepsEC_pure (a : α) : KeepsEC (PyM.pure a) := fun _ => rfl

lemma keepsEC_lift (e : Except PyErr α) : KeepsEC (PyM.lift e) := by
  intro m
  cases e <;> rfl

lemma keepsEC_fetch (net : Network) (url : String) : KeepsEC (PyM.fetch net url) := by
  intro m
  unfold PyM.fetch
  rcases net url with r | msg | msg <;> rfl

lemma keepsEC_mod (f : Metrics → Metrics)
    (hf : ∀ m, (f m).error_count = m.error_count) : KeepsEC (PyM.mod f) :=
  fun m => hf m

lemma keepsEC_bind {x : PyM α} {f : α → PyM β}
    (hx : KeepsEC x) (hf : ∀ a, KeepsEC (f a)) : KeepsEC (x.bind f) := by
  intro m
  have h1 := hx m
  show ((PyM.bind x f m).state).error_count = m.error_count
  unfold PyM.bind
  rcases hres : x m with ⟨a, m1⟩ | ⟨e, m1⟩
  · rw [hres] at h1
    exact (hf a m1).trans h1
  · rw [hres] at h1
    exact h1

lemma keepsEC_attempt {act hdl : PyM Unit}
    (ha : KeepsEC act) (hh : KeepsEC hdl) : KeepsEC (act.attempt hdl) := by
  intro m
  have h1 := ha m
  show ((PyM.attempt act hdl m).state).error_count = m.error_count
  unfold PyM.attempt
  rcases hres : act m with ⟨a, m1⟩ | ⟨e, m1⟩
  · rw [hres] at h1
    exact h1
  · rw [hres] at h1
    exact (hh m1).trans h1

lemma keepsEC_ite (c : Prop) [Decidable c] {x y : PyM α}
    (hx : KeepsEC x) (hy : KeepsEC y) : KeepsEC (if c then x else y) := by
  by_cases h : c <;> simp only [h, if_true, if_false]
  · exact hx
  · exact hy

lemma keepsEC_srsStreamsBody (net : Network) (endpoint : String) :
    KeepsEC (srsStreamsBody net endpoint) := by
  unfold srsStreamsBody
  apply keepsEC_bind (keepsEC_fetch net _)
  intro streams_response
  apply keepsEC_ite
  · apply keepsEC_bind (keepsEC_lift _)
    intro streams_data
    apply keepsEC_bind (keepsEC_lift _)
    intro streams_list
    apply keepsEC_bind (keepsEC_lift _)
    intro t
    exact keepsEC_mod _ (fun m => rfl)
  · exact keepsEC_pure ()

lemma keepsEC_fallbackKbps (d : JVal) : KeepsEC (fallbackKbps d) := by
  unfold fallbackKbps
  apply keepsEC_bind (keepsEC_lift _)
  intro hasK
  apply keepsEC_ite
  · apply keepsEC_bind (keepsEC_lift _)
    intro kbps_data
    apply keepsEC_bind
    · apply keepsEC_bind (keepsEC_lift _)
      intro hasR
      apply keepsEC_ite
      · apply keepsEC_bind (keepsEC_lift _)
        intro v
        apply keepsEC_bind (keepsEC_lift _)
        intro q
        exact keepsEC_mod _ (fun m => rfl)
      · exact keepsEC_pure ()
    · intro a
      apply keepsEC_bind (keepsEC_lift _)
      intro hasS
      apply keepsEC_ite
      · apply keepsEC_bind (keepsEC_lift _)
        intro v
        apply keepsEC_bind (keepsEC_lift _)
        intro q
        exact keepsEC_mod _ (fun m => rfl)
      · exact keepsEC_pure ()
  · exact keepsEC_pure ()

lemma keepsEC_fallbackBytes (d : JVal) : KeepsEC (fallbackBytes d) := by
  unfold fallbackBytes
  apply keepsEC_bind (keepsEC_lift _)
  intro hasB
  apply keepsEC_ite
  · apply keepsEC_bind (keepsEC_lift _)
    intro bytes_data
    apply keepsEC_bind
    · apply keepsEC_bind (keepsEC_lift _)
      intro hasR
      apply keepsEC_ite
      · apply keepsEC_bind (keepsEC_lift _)
        intro v
        apply keepsEC_bind (keepsEC_lift _)
        intro i
        exact keepsEC_mod _ (fun m => rfl)
      · exact keepsEC_pure ()
    · intro a
      apply keepsEC_bind (keepsEC_lift _)
      intro hasS
      apply keepsEC_ite
      · apply keepsEC_bind (keepsEC_lift _)
        intro v
        apply keepsEC_bind (keepsEC_lift _)
        intro i
        exact keepsEC_mod _ (fun m => rfl)
      · exact keepsEC_pure ()
  · exact keepsEC_pure ()

lemma keepsEC_summariesFallback (net : Network) (endpoint : String) :
    KeepsEC (summariesFallback net endpoint) := by
  unfold summariesFallback
  apply keepsEC_attempt
  · apply keepsEC_bind (keepsEC_fetch net _)
    intro stats_response
    apply keepsEC_ite
    · apply keepsEC_bind (keepsEC_lift _)
      intro stats_data
      apply keepsEC_bind (keepsEC_lift _)
      intro hasData
      apply keepsEC_ite
      · apply keepsEC_bind (keepsEC_lift _)
        intro dcheck
        apply keepsEC_ite
        · apply keepsEC_bind (keepsEC_lift _)
          intro data_section
          exact keepsEC_bind (keepsEC_fallbackKbps data_section)
            (fun _ => keepsEC_fallbackBytes data_section)
        · exact keepsEC_pure ()
      · exact keepsEC_pure ()
    · exact keepsEC_pure ()
  · exact keepsEC_pure ()

lemma keepsEC_srsBranch (net : Network) (endpoint : String) :
    KeepsEC (srsBranch net endpoint) := by
  unfold srsBranch
  apply keepsEC_bind (keepsEC_fetch net _)
  intro response
  apply keepsEC_ite
  · apply keepsEC_bind (keepsEC_lift _)
    intro data
    apply keepsEC_bind (keepsEC_lift _)
    intro clients
    apply keepsEC_bind (keepsEC_lift _)
    intro n
    apply keepsEC_bind
    · exact keepsEC_mod _ (fun m => rfl)
    intro u1
    apply keepsEC_bind (keepsEC_lift _)
    intro items
    apply keepsEC_bind (keepsEC_lift _)
    intro hls
    apply keepsEC_bind
    · exact keepsEC_mod _ (fun m => rfl)
    intro u2
    apply keepsEC_bind
    · exact keepsEC_mod _ (fun m => rfl)
    intro u3
    exact keepsEC_attempt (keepsEC_srsStreamsBody net endpoint)
      (keepsEC_summariesFallback net endpoint)
  · exact keepsEC_pure ()

lemma keepsEC_nginxLineStep (line : String) : KeepsEC (nginxLineStep line) := by
  unfold nginxLineStep
  apply keepsEC_ite
  · apply keepsEC_bind (keepsEC_lift _)
    intro tok
    apply keepsEC_bind (keepsEC_lift _)
    intro v
    exact keepsEC_mod _ (fun m => rfl)
  · apply keepsEC_ite
    · apply keepsEC_ite
      · apply keepsEC_bind (keepsEC_lift _)
        intro v
        exact keepsEC_mod _ (fun m => rfl)
      · exact keepsEC_pure ()
    · exact keepsEC_pure ()

lemma keepsEC_nginxLines (lines : List String) : KeepsEC (nginxLines lines) := by
  induction lines with
  | nil => exact keepsEC_pure ()
  | cons l rest ih => exact keepsEC_bind (keepsEC_nginxLineStep l) (fun _ => ih)

lemma keepsEC_nginxBranch (net : Network) (endpoint : String) :
    KeepsEC (nginxBranch net endpoint) := by
  unfold nginxBranch
  apply keepsEC_bind (keepsEC_fetch net _)
  intro response
  apply keepsEC_ite
  · exact keepsEC_bind (keepsEC_nginxLines _) (fun _ => keepsEC_mod _ (fun m => rfl))
  · exact keepsEC_pure ()

lemma keepsEC_genericBranch (net : Network) (endpoint : String) :
    KeepsEC (genericBranch net endpoint) := by
  unfold genericBranch
  apply keepsEC_bind (keepsEC_fetch net _)
  intro response
  apply keepsEC_ite
  · apply keepsEC_bind
    · exact keepsEC_mod _ (fun m => rfl)
    intro u1
    apply keepsEC_attempt
    · apply keepsEC_bind (keepsEC_lift _)
      intro data
      apply keepsEC_bind (keepsEC_lift _)
      intro h1
      apply keepsEC_bind
      · apply keepsEC_ite
        · apply keepsEC_bind (keepsEC_lift _)
          intro v
          exact keepsEC_mod _ (fun m => rfl)
        · exact keepsEC_pure ()
      · intro u2
        apply keepsEC_bind (keepsEC_lift _)
        intro h2
        apply keepsEC_bind
        · apply keepsEC_ite
          · apply keepsEC_bind (keepsEC_lift _)
            intro v
            exact keepsEC_mod _ (fun m => rfl)
          · exact keepsEC_pure ()
        · intro u3
          apply keepsEC_bind (keepsEC_lift _)
          intro h3
          apply keepsEC_ite
          · apply keepsEC_bind (keepsEC_lift _)
            intro v
            exact keepsEC_mod _ (fun m => rfl)
          · exact keepsEC_pure ()
    · exact keepsEC_pure ()
  · exact keepsEC_pure ()

/-- The URL of the dialect's primary metrics request. -/
def primaryUrl (server : Server) : String :=
  if server.api_type == "srs" then server.api_endpoint.getD "" ++ "/api/v1/clients"
  else server.api_endpoint.getD ""

/-- Network whose stub_status body parses its first line and then raises a
`ValueError` on its malformed second line. -/
def netC7 : Network := fun url =>
  if url = "http://n" then
    .resp { status := 200,
            text := "Active connections: 42\nActive connections: xyz",
            latencyMs := 2 }
  else .reqExc "x"

/-- Claim C7 counterexample: a parse failure midway through the body yields
`error_count = 1` but does NOT leave the numeric fields at their defaults:
the line parsed before the failure already set active_connections to 42. -/
theorem C7_counterexample :
    (get_server_metrics netC7 srvN).error_count = .num 1 ∧
    (get_server_metrics netC7 srvN).active_connections = .num 42 := by
  constructor <;> rfl

/-- Claim C7 amended: metric collection is total with `error_count` either 0
(no escaping raise) or 1 (some raise, set by the single top-level handler;
the dialect code itself never writes the key); and when the dialect's primary
request itself fails in transport, the failure precedes every dict write, so
the result is exactly the all-default dict with `error_count = 1`. -/
theorem C7_amended (net : Network) (server : Server) :
    ((get_server_metrics net server).error_count = .num 0 ∨
      (get_server_metrics net server).error_count = .num 1) ∧
    (∀ msg, optStrTruthy server.api_endpoint = true →
      (net (primaryUrl server) = .reqExc msg ∨ net (primaryUrl server) = .otherExc msg) →
      get_server_metrics net server = { error_count := .num 1 }) := by
  constructor
  · by_cases hep : optStrTruthy server.api_endpoint = true
    · have hk : KeepsEC
          (if server.api_type == "srs" then srsBranch net (server.api_endpoint.getD "")
           else if server.api_type == "nginx" then nginxBranch net (server.api_endpoint.getD "")
           else genericBranch net (server.api_endpoint.getD "")) := by
        apply keepsEC_ite
        · exact keepsEC_srsBranch net _
        · apply keepsEC_ite
          · exact keepsEC_nginxBranch net _
          · exact keepsEC_genericBranch net _
      have h0 := hk {}
      unfold get_server_metrics
      simp only [hep, Bool.not_true, Bool.false_eq_true, if_false]
      rcases hbody : (if server.api_type == "srs" then srsBranch net (server.api_endpoint.getD "")
           else if server.api_type == "nginx" then nginxBranch net (server.api_endpoint.getD "")
           else genericBranch net (server.api_endpoint.getD "")) ({} : Metrics) with ⟨a, m⟩ | ⟨e, m⟩
      · rw [hbody] at h0
        exact Or.inl h0
      · rw [hbody] at h0
        exact Or.inr rfl
    · unfold get_server_metrics
      have hep2 : optStrTruthy server.api_endpoint = false := by
        cases h : optStrTruthy server.api_endpoint
        · rfl
        · exact absurd h hep
      simp only [hep2, Bool.not_false, if_true]
      exact Or.inl (by trivial)
  · intro msg hep hexc
    unfold get_server_metrics
    simp only [hep, Bool.not_true, Bool.false_eq_true, if_false]
    unfold primaryUrl at hexc
    by_cases hsrs : (server.api_type == "srs") = true
    · simp only [hsrs, if_true] at hexc ⊢
      unfold srsBranch
      rcases hexc with h | h <;>
        simp [PyM.bind, PyM.fetch, h]
    · simp only [hsrs, Bool.false_eq_true, if_false] at hexc ⊢
      by_cases hngx : (server.api_type == "nginx") = true
      · simp only [hngx, if_true]
        unfold nginxBranch
        rcases hexc with h | h <;>
          simp [PyM.bind, PyM.fetch, h]
      · simp only [hngx, Bool.false_eq_true, if_false]
        unfold genericBranch
        rcases hexc with h | h <;>
          simp [PyM.bind, PyM.fetch, h]

/-- Witness for C7 amended: a DNS failure on the primary request yields the
all-default dict with `error_count = 1`. -/
theorem C7_amended_witness :
    get_server_metrics (fun _ => FetchResult.reqExc "dns") srvN
      = { error_count := .num 1 } :=
  (C7_amended (fun _ => FetchResult.reqExc "dns") srvN).2 "dns" rfl (Or.inl rfl)

end NetDash
